import Mathlib

/-
  Verification development for the PDF image extractor (src/extractor.py).

  The script's core is embedded shallowly:
  * pixel buffers are lists of channel quadruples with a mode tag
    (PIL `Image` objects);
  * external collaborators (PIL decoding via `Image.open`, the ICC profile
    transform, PIL's bilinear resampling, and PyMuPDF's `fitz.Pixmap`) are
    passed in as oracle functions, with `Option`/`Except` encoding the
    possibility that the external call raises;
  * the per-image loop of `extract_images_from_pdf` is a fold over a list of
    image events, each event carrying the data and failure outcomes of the
    external calls made for that image.  File writes are modelled as always
    succeeding (file-system plumbing is outside the algorithmic core).
-/

namespace PdfImageExtractor

/-- PIL channel modes occurring in the script: `"RGB"`, `"RGBA"`, `"L"`,
`"LA"`, `"CMYK"`, `"1"` (here `bilevel`) and palette mode `"P"`. -/
inductive Mode
  | RGB
  | RGBA
  | L
  | LA
  | CMYK
  | bilevel
  | P
deriving DecidableEq

/-- A decoded PIL image: mode, size and row-major pixel data.  Every pixel is
stored as a quadruple of natural channel values; modes with fewer channels use
a prefix of the quadruple (for `L`, `LA` and `bilevel` the first component is
the intensity), and for modes carrying alpha (`RGBA`, `LA`) the alpha value is
the fourth component.  For palette mode `P` the stored quadruple is the
palette-resolved colour. -/
structure Img where
  mode : Mode
  width : Nat
  height : Nat
  px : List (Nat × Nat × Nat × Nat)
deriving DecidableEq

/-- Channel triple a pixel contributes when converted to RGB.  CMYK pixels
follow PIL's arithmetic mapping r = (255-c)*(255-k)/255 (and likewise for
g, b), which is what `img.convert("RGB")` uses. -/
def pxToRGBTriple : Mode → Nat × Nat × Nat × Nat → Nat × Nat × Nat
  | .RGB, p => (p.1, p.2.1, p.2.2.1)
  | .RGBA, p => (p.1, p.2.1, p.2.2.1)
  | .P, p => (p.1, p.2.1, p.2.2.1)
  | .L, p => (p.1, p.1, p.1)
  | .LA, p => (p.1, p.1, p.1)
  | .bilevel, p => (p.1, p.1, p.1)
  | .CMYK, p => ((255 - p.1) * (255 - p.2.2.2) / 255,
                 (255 - p.2.1) * (255 - p.2.2.2) / 255,
                 (255 - p.2.2.1) * (255 - p.2.2.2) / 255)

/-- PIL's ITU-R 601-2 luma used by `convert("L")`. -/
def lum601 (t : Nat × Nat × Nat) : Nat :=
  (299 * t.1 + 587 * t.2.1 + 114 * t.2.2) / 1000

/-- Model of `img.convert("RGB")`. -/
def convertRGB (img : Img) : Img :=
  ⟨.RGB, img.width, img.height,
    img.px.map (fun p =>
      ((pxToRGBTriple img.mode p).1,
       (pxToRGBTriple img.mode p).2.1,
       (pxToRGBTriple img.mode p).2.2, 0))⟩

/-- Model of `img.convert("L")`. -/
def convertL (img : Img) : Img :=
  ⟨.L, img.width, img.height,
    img.px.map (fun p => (lum601 (pxToRGBTriple img.mode p), 0, 0, 0))⟩

/-- Errors of the Pillow-level helpers: `Image.open` failing to decode the
given bytes, or the `fitz.Pixmap` re-encode raising (case C of the loop). -/
inductive PilError
  | openFailed
  | pixmapFailed
deriving DecidableEq

/-- Model of `_open_pillow_image` (lines 30-40): decode bytes via the `decode` oracle
(`Image.open`, which raises on undecodable input — modelled by `none`), then
normalize CMYK to RGB: try the ICC `profile` oracle
(`ImageCms.profileToProfile`, `none` = that call raised) and on failure fall
back to `img.convert("RGB")`.  Non-CMYK decodes are returned unchanged. -/
def openPillowImage (decode : List Nat → Option Img) (profile : Img → Option Img)
    (imageBytes : List Nat) : Except PilError Img :=
  match decode imageBytes with
  | none => .error .openFailed
  | some img =>
    if img.mode = .CMYK then
      match profile img with
      | some r => .ok r
      | none => .ok (convertRGB img)
    else .ok img

/-- Model of `_resize_mask` (lines 43-50): reduce to single-channel intensity if
needed, then resize with bilinear interpolation (the `resample` oracle stands
for PIL's `resize(size, Image.BILINEAR)`, taking the intensity values, the old
size and the new size). -/
def resizeMask (resample : List Nat → Nat × Nat → Nat × Nat → List Nat)
    (mask : Img) (size : Nat × Nat) : Img :=
  let m := if ¬(mask.mode = .L ∨ mask.mode = .bilevel) then convertL mask else mask
  if (m.width, m.height) = size then m
  else ⟨m.mode, size.1, size.2,
        (resample (m.px.map (fun p => p.1)) (m.width, m.height) size).map
          (fun v => (v, 0, 0, 0))⟩

/-- Rec. 709 luma of an RGB triple, as computed inline in
`apply_and_score`: 0.2126 R + 0.7152 G + 0.0722 B. -/
def lumaRec709 (r g b : Nat) : ℚ :=
  (2126 / 10000) * r + (7152 / 10000) * g + (722 / 10000) * b

/-- All quantities computed by `apply_and_score` for one candidate. -/
structure ScoreData where
  rgba : List (Nat × Nat × Nat × Nat)
  total : Nat
  visCount : Nat
  visibleFrac : ℚ
  meanAlpha : ℚ
  meanBrightness : ℚ
  coveragePenalty : ℚ
  score : ℚ
deriving DecidableEq

/-- Model of `apply_and_score` inside `_choose_mask_orientation` (lines 61-89): attach
the mask `m`'s intensity channel as alpha to the RGB base (`putalpha` after
`convert("RGBA")`), then compute the divisor `total` (1 for a zero-pixel
buffer), the visible pixels (alpha strictly above 8), the visible fraction,
the mean alpha over all pixels, the mean Rec. 709 brightness of visible pixels
(0 when none is visible), the coverage penalty (200 when the visible fraction
is below 0.02 or above 0.98) and the score. -/
def applyAndScore (base : Img) (m : Img) : ScoreData :=
  let rgba := List.zipWith (fun (p : Nat × Nat × Nat × Nat) (a : Nat) =>
    (p.1, p.2.1, p.2.2.1, a)) base.px (m.px.map (fun q => q.1))
  let alpha := rgba.map (fun p => p.2.2.2)
  let total := if alpha.isEmpty then 1 else alpha.length
  let vis := rgba.filter (fun p => 8 < p.2.2.2)
  let vfrac : ℚ := (vis.length : ℚ) / (total : ℚ)
  let meanA : ℚ := ((alpha.sum : ℚ)) / (total : ℚ)
  let meanB : ℚ :=
    if vis.isEmpty then 0
    else ((vis.map (fun p => lumaRec709 p.1 p.2.1 p.2.2.1)).sum) / (vis.length : ℚ)
  let pen : ℚ := if vfrac < 2 / 100 ∨ 98 / 100 < vfrac then 200 else 0
  ⟨rgba, total, vis.length, vfrac, meanA, meanB, pen, (meanB + 3 / 10 * meanA) - pen⟩

/-- Model of `Image.eval(mask_gray, lambda p: 255 - p)` (line 94). -/
def invertMask (m : Img) : Img :=
  ⟨m.mode, m.width, m.height,
    m.px.map (fun p => (255 - p.1, 255 - p.2.1, 255 - p.2.2.1, 255 - p.2.2.2))⟩

/-- Model of `_choose_mask_orientation` (lines 53-104): score the mask as supplied and
inverted, and return the RGBA pixel data of `rgba_a if score_a >= score_b
else rgba_b` together with a flag telling whether the inverted candidate was
the one chosen. -/
def chooseMaskOrientation (base : Img) (m : Img) :
    List (Nat × Nat × Nat × Nat) × Bool :=
  let a := applyAndScore base m
  let b := applyAndScore base (invertMask m)
  if b.score ≤ a.score then (a.rgba, false) else (b.rgba, true)

/-- Base preparation in `_save_png_from_base_and_mask` (lines 119-123): force
the base into RGB before attaching alpha (convert anything that is neither RGB
nor L, then convert L to RGB). -/
def ensureRGBBase (img : Img) : Img :=
  let b := if ¬(img.mode = .RGB ∨ img.mode = .L) then convertRGB img else img
  if b.mode = .L then convertRGB b else b

/-- Opaque-convert normalization of case D (lines 231-234): convert anything
outside RGB, L, RGBA, LA to RGB, then convert L to RGB. -/
def ensureSaveMode (img : Img) : Img :=
  let b :=
    if ¬(img.mode = .RGB ∨ img.mode = .L ∨ img.mode = .RGBA ∨ img.mode = .LA)
    then convertRGB img else img
  if b.mode = .L then convertRGB b else b

/-- Model of `_save_png_from_base_and_mask` (lines 107-136).  Returns the
image that is saved to the output path together with a flag telling whether
the mask pipeline (mask decode, resample, orientation resolution) ran.  A base
that already carries alpha (mode RGBA or LA) is saved as-is; with no mask
bytes the prepared RGB base is saved opaque; otherwise the mask is decoded,
reduced to intensity, resized, and the orientation resolver produces the RGBA
result. -/
def savePngFromBaseAndMask (decode : List Nat → Option Img)
    (profile : Img → Option Img)
    (resample : List Nat → Nat × Nat → Nat × Nat → List Nat)
    (baseBytes : List Nat) (maskBytes : Option (List Nat)) :
    Except PilError (Img × Bool) :=
  match openPillowImage decode profile baseBytes with
  | .error e => .error e
  | .ok base =>
    if base.mode = .RGBA ∨ base.mode = .LA then .ok (base, false)
    else
      let base2 := ensureRGBBase base
      match maskBytes with
      | none => .ok (base2, false)
      | some mb =>
        match decode mb with
        | none => .error .openFailed
        | some mask0 =>
          let mask1 :=
            if ¬(mask0.mode = .L ∨ mask0.mode = .bilevel) then convertL mask0
            else mask0
          let mask2 := resizeMask resample mask1 (base2.width, base2.height)
          .ok (⟨.RGBA, base2.width, base2.height,
                (chooseMaskOrientation base2 mask2).1⟩, true)

/-- The four reconstruction strategies of the decision engine. -/
inductive ReconstructionStrategy
  | passThroughRaw
  | compositeWithMask
  | compositeWithInternalAlpha
  | convertToOpaquePng
deriving DecidableEq

/-- Strategy selection as the loop body of `extract_images_from_pdf` performs
it (lines 196-236): `tupleVal` is the mask slot `it[1]` of the
`page.get_images(full=True)` tuple, `dictSmask` the `smask` field of the
`doc.extract_image` dict (0 meaning absent in both cases), and
`smask_xref = base.get("smask") or it[1]` (line 171).  Case A (raw
pass-through) requires the extension in the allow-list and no transparency
signal at all; otherwise the first match of mask, internal alpha, opaque wins
(lines 208, 213, 229). -/
def selectStrategy (skipConv : List String) (ext : String)
    (tupleVal dictSmask : Nat) (pixAlpha : Bool) : ReconstructionStrategy :=
  let smaskXref := if dictSmask ≠ 0 then dictSmask else tupleVal
  if ext ∈ skipConv ∧ ¬(tupleVal ≠ 0 ∨ smaskXref ≠ 0 ∨ pixAlpha = true) then
    .passThroughRaw
  else if tupleVal ≠ 0 ∨ smaskXref ≠ 0 then .compositeWithMask
  else if pixAlpha = true then .compositeWithInternalAlpha
  else .convertToOpaquePng

/-- Classifier following the specification's words (its precedence list,
first match wins): 1. explicit soft-mask reference (tuple mask slot or dict
smask field) selects the mask-composite path; 2. else internal alpha; 3. else
allow-listed extension passes raw bytes through; 4. else opaque convert.
Stated independently of `selectStrategy` to compare the two. -/
def specClassify (skipConv : List String) (ext : String)
    (tupleVal dictSmask : Nat) (pixAlpha : Bool) : ReconstructionStrategy :=
  if tupleVal ≠ 0 ∨ dictSmask ≠ 0 then .compositeWithMask
  else if pixAlpha = true then .compositeWithInternalAlpha
  else if ext ∈ skipConv then .passThroughRaw
  else .convertToOpaquePng

/-- One embedded image as the loop sees it: the descriptor data read from the
document plus the outcome of every external call made while processing it.
`tupleVal` and `dictSmask` are the two soft-mask reference slots (0 = absent).
`baseExtractFails` models `doc.extract_image(xref)` raising at line 166;
`maskExtractFails` models `doc.extract_image(smask_xref)` raising at line 175;
`probe` is the `fitz.Pixmap` alpha probe (`none` = the probe raised, which
line 185 swallows); `pixmapResult` is the outcome of the case C pixmap
re-encode (`none` = it raised); `decode`, `profile` and `resample` are the
Pillow oracles used by the mask-composite and opaque paths. -/
structure ImageEvent where
  ext : String
  tupleVal : Nat
  dictSmask : Nat
  baseExtractFails : Bool
  baseBytes : List Nat
  maskExtractFails : Bool
  maskBytes : List Nat
  probe : Option Bool
  pixmapResult : Option Img
  decode : List Nat → Option Img
  profile : Img → Option Img
  resample : List Nat → Nat × Nat → Nat × Nat → List Nat

/-- The file an image's processing leaves in the output directory: either the
raw bytes (case A pass-through, or the per-image exception fallback of lines
238-242), or a PNG with the given pixel content. -/
inductive SavedOutput
  | raw (contents : List Nat)
  | png (img : Img)
deriving DecidableEq

/-- What processing one image produced: the persisted output, whether the
soft-mask warning of line 177 was logged, and whether the per-image error of
line 242 was logged. -/
structure ImageResult where
  output : SavedOutput
  warnedMask : Bool
  errorLogged : Bool
deriving DecidableEq

/-- The only exception that can escape the per-image code: base byte
extraction (line 166) raising outside the try of lines 207-242. -/
inductive ExtractError
  | baseExtract
deriving DecidableEq

/-- Value of `smask_xref` (line 171): the dict smask field if truthy, else
the tuple mask slot. -/
def smaskXrefOf (ev : ImageEvent) : Nat :=
  if ev.dictSmask ≠ 0 then ev.dictSmask else ev.tupleVal

/-- Value of `pix_alpha` (lines 180-186): false when the probe raised. -/
def pixAlphaOf (ev : ImageEvent) : Bool :=
  ev.probe.getD false

/-- The loop body for one image after base bytes were extracted successfully
(lines 168-244): compute the mask bytes (line 177 logs a warning and leaves
them `None` when mask extraction raises), probe internal alpha, pick the
strategy, and run its branch; any failure inside the guarded branch (lines
207-242) is caught and the raw base bytes are persisted with an error log.
This function is total: with the base bytes in hand no exception escapes. -/
def processImageBody (skipConv : List String) (ev : ImageEvent) : ImageResult :=
  let smaskXref := smaskXrefOf ev
  let pixAlpha := pixAlphaOf ev
  let warned : Bool := if smaskXref ≠ 0 then ev.maskExtractFails else false
  let maskBytesOpt : Option (List Nat) :=
    if smaskXref ≠ 0 ∧ ev.maskExtractFails = false then some ev.maskBytes
    else none
  match selectStrategy skipConv ev.ext ev.tupleVal ev.dictSmask pixAlpha with
  | .passThroughRaw => ⟨.raw ev.baseBytes, warned, false⟩
  | .compositeWithMask =>
    match savePngFromBaseAndMask ev.decode ev.profile ev.resample
        ev.baseBytes maskBytesOpt with
    | .ok r => ⟨.png r.1, warned, false⟩
    | .error _ => ⟨.raw ev.baseBytes, warned, true⟩
  | .compositeWithInternalAlpha =>
    match ev.pixmapResult with
    | some i => ⟨.png i, warned, false⟩
    | none => ⟨.raw ev.baseBytes, warned, true⟩
  | .convertToOpaquePng =>
    match openPillowImage ev.decode ev.profile ev.baseBytes with
    | .ok b => ⟨.png (ensureSaveMode b), warned, false⟩
    | .error _ => ⟨.raw ev.baseBytes, warned, true⟩

/-- Processing one image from the top of the loop body: `doc.extract_image`
at line 166 is outside the try block, so its failure raises out of the loop;
everything after it is the total `processImageBody`. -/
def processImage (skipConv : List String) (ev : ImageEvent) :
    Except ExtractError ImageResult :=
  if ev.baseExtractFails then .error .baseExtract
  else .ok (processImageBody skipConv ev)

/-- The page/image loop of `extract_images_from_pdf` (lines 155-244) over the
flattened list of images: returns the final value of `count`, the outputs
persisted, and the exception that escaped the loop, if any.  An escaping
exception stops all later images. -/
def extractImagesFromPdf (skipConv : List String) :
    List ImageEvent → Nat × List ImageResult × Option ExtractError
  | [] => (0, [], none)
  | ev :: rest =>
    match processImage skipConv ev with
    | .error e => (0, [], some e)
    | .ok r =>
      let t := extractImagesFromPdf skipConv rest
      (t.1 + 1, r :: t.2.1, t.2.2)

/-- Whether an image would be saved without any transparent pixel: modes
without an alpha channel are opaque; RGBA and LA are opaque only when every
alpha value is 255. -/
def isOpaqueImage (img : Img) : Bool :=
  if img.mode = .RGBA ∨ img.mode = .LA then
    img.px.all (fun p => p.2.2.2 == 255)
  else true

/-- The specification's visible-coverage fraction of an RGBA pixel list:
fraction of pixels with alpha strictly greater than 8. -/
def specVisibleFrac (px : List (Nat × Nat × Nat × Nat)) : ℚ :=
  ((px.filter (fun p => 8 < p.2.2.2)).length : ℚ) / (px.length : ℚ)

/-- The specification's mean alpha: arithmetic mean of all alpha values. -/
def specMeanAlpha (px : List (Nat × Nat × Nat × Nat)) : ℚ :=
  (((px.map (fun p => p.2.2.2)).sum : ℚ)) / (px.length : ℚ)

/-- The specification's mean brightness: mean over visible pixels of
0.2126 R + 0.7152 G + 0.0722 B, and zero if no pixel is visible. -/
def specMeanBrightness (px : List (Nat × Nat × Nat × Nat)) : ℚ :=
  let vis := px.filter (fun p => 8 < p.2.2.2)
  if vis.isEmpty then 0
  else ((vis.map (fun p =>
    (2126 / 10000 : ℚ) * p.1 + (7152 / 10000 : ℚ) * p.2.1
      + (722 / 10000 : ℚ) * p.2.2.1)).sum) / (vis.length : ℚ)

/-- The specification's coverage penalty: the fixed constant 200 iff the
visible fraction falls outside the band [0.02, 0.98], else zero. -/
def specCoveragePenalty (px : List (Nat × Nat × Nat × Nat)) : ℚ :=
  if ¬(2 / 100 ≤ specVisibleFrac px ∧ specVisibleFrac px ≤ 98 / 100) then 200
  else 0

/-- The specification's score: meanBrightness + 0.3 meanAlpha − penalty. -/
def specScore (px : List (Nat × Nat × Nat × Nat)) : ℚ :=
  specMeanBrightness px + 3 / 10 * specMeanAlpha px - specCoveragePenalty px

/-- The band [0.02, 0.98] of acceptable visible coverage. -/
def inBand (q : ℚ) : Prop :=
  2 / 100 ≤ q ∧ q ≤ 98 / 100

/-- Resampling oracle that returns the intensity data unchanged (enough for
concrete runs that never reach the resize). -/
def resampleId : List Nat → Nat × Nat → Nat × Nat → List Nat :=
  fun p _ _ => p

/-- Decode oracle for undecodable bytes: `Image.open` always raises. -/
def decodeNone : List Nat → Option Img :=
  fun _ => none

/-- Profile oracle whose ICC transform always raises. -/
def profileNone : Img → Option Img :=
  fun _ => none

/-- Concrete 2-pixel base for the C3 counterexample: one black and one white
pixel. -/
def baseC3cx : Img := ⟨.RGB, 2, 1, [(0, 0, 0, 0), (255, 255, 255, 0)]⟩

/-- Concrete mask for the C3 counterexample: intensity 9 on the black pixel,
0 on the white pixel.  As supplied, exactly the black pixel is visible
(coverage 1/2, in band, but brightness 0); inverted, both pixels are visible
(coverage 1, out of band, penalised, but bright and opaque). -/
def maskC3cx : Img := ⟨.L, 2, 1, [(9, 0, 0, 0), (0, 0, 0, 0)]⟩

/-- All-black 2-pixel base used by the C3 witness. -/
def baseC3w : Img := ⟨.RGB, 2, 1, [(0, 0, 0, 0), (0, 0, 0, 0)]⟩

/-- Mask used by the C3 witness: as supplied in band (coverage 1/2), inverted
out of band (coverage 1), with a small unpenalised-score gap. -/
def maskC3w : Img := ⟨.L, 2, 1, [(9, 0, 0, 0), (0, 0, 0, 0)]⟩

/-- One-pixel base for the C4 witness. -/
def baseC4w : Img := ⟨.RGB, 1, 1, [(10, 20, 30, 0)]⟩

/-- One-pixel mask for the C4 witness. -/
def maskC4w : Img := ⟨.L, 1, 1, [(100, 0, 0, 0)]⟩

/-- All-black base for the C5 tie witness. -/
def baseC5w : Img := ⟨.RGB, 2, 1, [(0, 0, 0, 0), (0, 0, 0, 0)]⟩

/-- Mask for the C5 tie witness: intensities 100 and 155 on a uniform base
give the as-supplied and inverted candidates identical statistics, hence
exactly equal scores. -/
def maskC5w : Img := ⟨.L, 2, 1, [(100, 0, 0, 0), (155, 0, 0, 0)]⟩

/-- A concrete CMYK decode result for the C6 witness. -/
def imgC6w : Img := ⟨.CMYK, 1, 1, [(0, 0, 0, 0)]⟩

/-- Decode oracle returning the CMYK image for the C6 witness. -/
def decodeC6w : List Nat → Option Img :=
  fun _ => some imgC6w

/-- An RGBA decode result with a fully transparent pixel, for the C7
counterexample: a base that already carries (non-opaque) alpha. -/
def imgC7cx : Img := ⟨.RGBA, 1, 1, [(10, 20, 30, 0)]⟩

/-- C7 counterexample event: a soft-mask reference is present
(dict smask field 7), mask extraction raises, and the base bytes decode to
the RGBA image above. -/
def evC7cx : ImageEvent :=
  ⟨"png", 0, 7, false, [1], true, [], some false, none,
    fun _ => some imgC7cx, profileNone, resampleId⟩

/-- A CMYK decode result for the C7 witness: the case the color normalizer
must convert to RGB before the alpha check. -/
def imgC7w : Img := ⟨.CMYK, 1, 1, [(5, 6, 7, 0)]⟩

/-- C7 witness event: soft-mask reference present, mask extraction raises,
base decodes to a CMYK image, and the profile transform raises so the direct
convert fallback normalizes the base to RGB. -/
def evC7w : ImageEvent :=
  ⟨"png", 0, 7, false, [1], true, [], some false, none,
    fun _ => some imgC7w, profileNone, resampleId⟩

/-- An RGBA decode result for the C8 witness. -/
def imgC8w : Img := ⟨.RGBA, 1, 1, [(1, 2, 3, 4)]⟩

/-- Decode oracle returning the RGBA image for the C8 witness. -/
def decodeC8w : List Nat → Option Img :=
  fun _ => some imgC8w

/-- C2 counterexample event: base byte extraction raises for this image. -/
def evC2cx : ImageEvent :=
  ⟨"png", 0, 0, true, [1], false, [], some false, none,
    decodeNone, profileNone, resampleId⟩

/-- First C2 witness event: base bytes extract fine but the opaque-convert
branch fails (the bytes do not decode), so the raw bytes are persisted. -/
def evC2wA : ImageEvent :=
  ⟨"png", 0, 0, false, [5], false, [], some false, none,
    decodeNone, profileNone, resampleId⟩

/-- Decode result for the second C2 witness event. -/
def imgC2w : Img := ⟨.RGB, 1, 1, [(1, 2, 3, 0)]⟩

/-- Second C2 witness event: processed without any failure. -/
def evC2wB : ImageEvent :=
  ⟨"png", 0, 0, false, [6], false, [], some false, none,
    fun _ => some imgC2w, profileNone, resampleId⟩

/-- The zero-pixel image used by the C10 witness. -/
def imgEmpty : Img := ⟨.RGB, 0, 0, []⟩

/-
  Helper lemmas shared across the claims.
-/

theorem applyAndScore_score_def (base m : Img) :
    (applyAndScore base m).score =
      (applyAndScore base m).meanBrightness
        + 3 / 10 * (applyAndScore base m).meanAlpha
        - (applyAndScore base m).coveragePenalty := rfl

theorem applyAndScore_penalty_def (base m : Img) :
    (applyAndScore base m).coveragePenalty =
      if (applyAndScore base m).visibleFrac < 2 / 100
          ∨ 98 / 100 < (applyAndScore base m).visibleFrac then 200 else 0 := rfl

theorem chooseMaskOrientation_def (base m : Img) :
    chooseMaskOrientation base m =
      if (applyAndScore base (invertMask m)).score ≤ (applyAndScore base m).score
      then ((applyAndScore base m).rgba, false)
      else ((applyAndScore base (invertMask m)).rgba, true) := rfl

theorem penalty_of_inBand (base m : Img)
    (h : inBand (applyAndScore base m).visibleFrac) :
    (applyAndScore base m).coveragePenalty = 0 := by
  rw [applyAndScore_penalty_def, if_neg]
  push_neg
  exact h

theorem penalty_of_outBand (base m : Img)
    (h : ¬ inBand (applyAndScore base m).visibleFrac) :
    (applyAndScore base m).coveragePenalty = 200 := by
  rw [applyAndScore_penalty_def, if_pos]
  rw [inBand, not_and_or, not_le, not_le] at h
  exact h

/-- C3 counterexample: the coverage penalty does not dominate the other score
terms.  On the concrete base (one black, one white pixel) and mask (9, 0),
the as-supplied orientation has visible coverage 1/2 (inside the band
[0.02, 0.98]) while the inverted orientation has visible coverage 1 (outside
the band), yet `_choose_mask_orientation` picks the inverted, out-of-band
candidate: its brightness and alpha terms (127.5 + 75.15) beat the penalty.
This refutes the claim that the resolver always chooses the in-band
orientation. -/
theorem claimC3_counterexample :
    inBand (applyAndScore baseC3cx maskC3cx).visibleFrac ∧
    ¬ inBand (applyAndScore baseC3cx (invertMask maskC3cx)).visibleFrac ∧
    (chooseMaskOrientation baseC3cx maskC3cx).2 = true := by
  refine ⟨?_, ?_, ?_⟩ <;>
    norm_num [inBand, chooseMaskOrientation, applyAndScore, baseC3cx, maskC3cx,
      invertMask, lumaRec709]

/-- C3 (amended): for every base/mask pair where the candidate of orientation
`b` (`b = true` meaning inverted) has in-band visible coverage, the other
orientation's candidate is out of band, and the out-of-band candidate's
unpenalised score (meanBrightness + 0.3 meanAlpha) exceeds the in-band
candidate's unpenalised score by less than the fixed penalty 200, the
orientation resolver chooses the in-band orientation.  (Without that gap
bound the out-of-band orientation can win, as the counterexample shows.) -/
theorem claimC3_amended (base m : Img) (b : Bool)
    (hin : inBand (applyAndScore base (if b then invertMask m else m)).visibleFrac)
    (hout : ¬ inBand (applyAndScore base (if b then m else invertMask m)).visibleFrac)
    (hgap : (applyAndScore base (if b then m else invertMask m)).meanBrightness
        + 3 / 10 * (applyAndScore base (if b then m else invertMask m)).meanAlpha
        < (applyAndScore base (if b then invertMask m else m)).meanBrightness
        + 3 / 10 * (applyAndScore base (if b then invertMask m else m)).meanAlpha
        + 200) :
    (chooseMaskOrientation base m).2 = b := by
  rw [chooseMaskOrientation_def]
  cases b
  · simp only [if_neg, Bool.false_eq_true, if_false] at hin hout hgap
    have h0 := penalty_of_inBand base m hin
    have h200 := penalty_of_outBand base (invertMask m) hout
    rw [if_pos]
    · rw [applyAndScore_score_def, applyAndScore_score_def, h0, h200]
      linarith
  · simp only [if_pos] at hin hout hgap
    have h0 := penalty_of_inBand base (invertMask m) hin
    have h200 := penalty_of_outBand base m hout
    rw [if_neg]
    rw [applyAndScore_score_def, applyAndScore_score_def, h0, h200, not_le]
    linarith

/-- Witness for the amended C3: on an all-black base with mask (9, 0), the
as-supplied orientation is in band, the inverted one is out of band, the
unpenalised gap is 73.8 < 200, and the resolver indeed picks the as-supplied
orientation. -/
theorem claimC3_witness : (chooseMaskOrientation baseC3w maskC3w).2 = false := by
  refine claimC3_amended baseC3w maskC3w false ?_ ?_ ?_ <;>
    norm_num [inBand, applyAndScore, baseC3w, maskC3w, invertMask, lumaRec709]

/-- C5: if the as-supplied and inverted candidates receive exactly equal
scores, `_choose_mask_orientation` returns the as-supplied candidate (the
comparison is `score_a >= score_b`). -/
theorem claimC5_tie_prefers_as_supplied (base m : Img)
    (h : (applyAndScore base m).score
        = (applyAndScore base (invertMask m)).score) :
    chooseMaskOrientation base m = ((applyAndScore base m).rgba, false) := by
  rw [chooseMaskOrientation_def, if_pos]
  exact le_of_eq h.symm

/-- Witness for C5: a concrete exact tie (uniform black base, complementary
mask statistics) resolves to the as-supplied candidate. -/
theorem claimC5_witness :
    chooseMaskOrientation baseC5w maskC5w
      = ([(0, 0, 0, 100), (0, 0, 0, 155)], false) := by
  rw [claimC5_tie_prefers_as_supplied baseC5w maskC5w (by
    norm_num [applyAndScore, baseC5w, maskC5w, invertMask, lumaRec709])]
  norm_num [applyAndScore, baseC5w, maskC5w]

/-- C4: for every candidate built by the orientation resolver from a
non-empty buffer, the computed score equals the specification's formula
meanBrightness + 0.3 meanAlpha − coveragePenalty, with visibility meaning
alpha strictly above 8, brightness the Rec. 709 weighted mean over visible
pixels (0 when none is visible), meanAlpha the mean over all alpha values,
and the penalty 200 exactly when the visible fraction leaves [0.02, 0.98]. -/
theorem claimC4_score_refines_spec (base m : Img)
    (h : (applyAndScore base m).rgba ≠ []) :
    (applyAndScore base m).score = specScore (applyAndScore base m).rgba := by
  simp only [applyAndScore, specScore, specMeanBrightness, specMeanAlpha,
    specCoveragePenalty, specVisibleFrac, lumaRec709, not_and_or, not_le] at h ⊢
  generalize hL : List.zipWith
    (fun (p : Nat × Nat × Nat × Nat) (a : Nat) => (p.1, p.2.1, p.2.2.1, a))
    base.px (List.map (fun q => q.1) m.px) = L at h ⊢
  have h2 : (List.map (fun (p : Nat × Nat × Nat × Nat) => p.2.2.2) L).isEmpty
      = false := by
    simp [List.isEmpty_iff, h]
  rw [h2]
  simp [List.length_map, Function.comp_def]

/-- Witness for C4 at a concrete non-empty buffer. -/
theorem claimC4_witness :
    (applyAndScore baseC4w maskC4w).score
      = specScore (applyAndScore baseC4w maskC4w).rgba :=
  claimC4_score_refines_spec baseC4w maskC4w (by
    norm_num [applyAndScore, baseC4w, maskC4w, lumaRec709])

/-- C10: candidate scoring is total even on degenerate buffers — the
pixel-count divisor is always positive, it is exactly 1 on a zero-pixel
buffer, and when no pixel is visible the mean brightness is defined as 0, so
no division by zero occurs in visibleFrac, meanAlpha or the score. -/
theorem claimC10_scoring_total (base m : Img) :
    0 < (applyAndScore base m).total ∧
    ((applyAndScore base m).rgba = [] → (applyAndScore base m).total = 1) ∧
    ((applyAndScore base m).visCount = 0 →
      (applyAndScore base m).meanBrightness = 0) := by
  refine ⟨?_, ?_, ?_⟩
  · simp only [applyAndScore]
    split
    · norm_num
    · rename_i hne
      simp only [List.isEmpty_iff] at hne
      simpa [List.length_pos] using hne
  · intro h
    simp only [applyAndScore] at h ⊢
    simp [h]
  · intro h
    simp only [applyAndScore] at h ⊢
    rw [List.length_eq_zero] at h
    simp [h]

/-- Witness for C10 at the zero-pixel buffer (both degenerate branches
fire). -/
theorem claimC10_witness :
    0 < (applyAndScore imgEmpty imgEmpty).total ∧
    (applyAndScore imgEmpty imgEmpty).total = 1 ∧
    (applyAndScore imgEmpty imgEmpty).meanBrightness = 0 := by
  obtain ⟨h1, h2, h3⟩ := claimC10_scoring_total imgEmpty imgEmpty
  exact ⟨h1, h2 (by norm_num [applyAndScore, imgEmpty]),
    h3 (by norm_num [applyAndScore, imgEmpty])⟩

/-- C1: the loop's strategy selection coincides with the specification's
fixed precedence (explicit soft-mask reference from tuple slot or dict smask
field, then internal alpha, then allow-listed extension, then opaque
convert), and in particular a descriptor with an explicit mask reference —
whatever its internal-alpha probe says — always takes the mask-composite
path. -/
theorem claimC1_classifier_precedence (skipConv : List String) (ext : String)
    (tupleVal dictSmask : Nat) (pixAlpha : Bool) :
    selectStrategy skipConv ext tupleVal dictSmask pixAlpha
      = specClassify skipConv ext tupleVal dictSmask pixAlpha ∧
    ((tupleVal ≠ 0 ∨ dictSmask ≠ 0) →
      selectStrategy skipConv ext tupleVal dictSmask pixAlpha
        = ReconstructionStrategy.compositeWithMask) := by
  unfold selectStrategy specClassify
  by_cases h1 : dictSmask = 0 <;> by_cases h2 : tupleVal = 0 <;>
    by_cases h3 : pixAlpha = true <;> by_cases h4 : ext ∈ skipConv <;>
    simp_all

/-- Witness for C1: both transparency signals present (tuple mask slot set
and internal alpha true) still select the mask-composite path, even with the
extension allow-listed. -/
theorem claimC1_witness :
    selectStrategy ["jpeg"] "jpeg" 1 0 true
      = ReconstructionStrategy.compositeWithMask :=
  (claimC1_classifier_precedence ["jpeg"] "jpeg" 1 0 true).2
    (Or.inl (by norm_num))

/-- C6 counterexample: `_open_pillow_image` can raise.  Its opening call
`Image.open` is outside the try block, so on bytes that do not decode the
function raises rather than returning a buffer, refuting the blanket claim
that the color-normalizing open never raises. -/
theorem claimC6_counterexample :
    openPillowImage decodeNone profileNone [0] = .error .openFailed := rfl

/-- C6 (amended): for every input whose bytes decode, `_open_pillow_image`
does not raise: a non-CMYK decode is returned unchanged, and a CMYK decode
always yields an RGB image, via the profile transform when it succeeds (it
outputs RGB mode) or via the direct convert fallback when it raises.  The
undecodable-bytes case (the decode oracle returning none) is the one
exception path, shown by the counterexample. -/
theorem claimC6_amended (decode : List Nat → Option Img)
    (profile : Img → Option Img) (bs : List Nat) (img : Img)
    (hdec : decode bs = some img)
    (hprof : ∀ i r, profile i = some r → r.mode = Mode.RGB) :
    ∃ out, openPillowImage decode profile bs = .ok out ∧
      (img.mode ≠ Mode.CMYK → out = img) ∧
      (img.mode = Mode.CMYK → out.mode = Mode.RGB) := by
  unfold openPillowImage
  rw [hdec]
  by_cases hm : img.mode = Mode.CMYK
  · cases hp : profile img with
    | none =>
      refine ⟨convertRGB img, by simp [hm, hp], fun hne => absurd hm hne,
        fun _ => rfl⟩
    | some r =>
      refine ⟨r, by simp [hm, hp], fun hne => absurd hm hne,
        fun _ => hprof img r hp⟩
  · exact ⟨img, by simp [hm], fun _ => rfl, fun hq => absurd hq hm⟩

/-- Witness for the amended C6: concrete CMYK bytes with a raising profile
transform still produce an RGB image via the fallback. -/
theorem claimC6_witness :
    ∃ out, openPillowImage decodeC6w profileNone [0] = .ok out ∧
      (imgC6w.mode ≠ Mode.CMYK → out = imgC6w) ∧
      (imgC6w.mode = Mode.CMYK → out.mode = Mode.RGB) :=
  claimC6_amended decodeC6w profileNone [0] imgC6w rfl
    (fun i r h => by simp [profileNone] at h)

/-- C8: when the base decodes to a mode that already carries alpha (RGBA or
LA), `_save_png_from_base_and_mask` saves the base unchanged with its own
alpha and ignores any supplied soft-mask bytes entirely — the mask pipeline
(decode, resample, orientation resolution) never runs, for every value of the
mask bytes. -/
theorem claimC8_alpha_base_short_circuit (decode : List Nat → Option Img)
    (profile : Img → Option Img)
    (resample : List Nat → Nat × Nat → Nat × Nat → List Nat)
    (baseBytes : List Nat) (maskBytes : Option (List Nat)) (img : Img)
    (hdec : decode baseBytes = some img)
    (hmode : img.mode = Mode.RGBA ∨ img.mode = Mode.LA) :
    savePngFromBaseAndMask decode profile resample baseBytes maskBytes
      = .ok (img, false) := by
  have hcmyk : img.mode ≠ Mode.CMYK := by
    rcases hmode with h | h <;> simp [h]
  unfold savePngFromBaseAndMask openPillowImage
  rw [hdec]
  simp [hcmyk, hmode]

/-- Witness for C8: a concrete RGBA base with mask bytes supplied is saved
as-is, with the mask pipeline skipped. -/
theorem claimC8_witness :
    savePngFromBaseAndMask decodeC8w profileNone resampleId [0] (some [9])
      = .ok (imgC8w, false) :=
  claimC8_alpha_base_short_circuit decodeC8w profileNone resampleId [0]
    (some [9]) imgC8w rfl (Or.inl rfl)

theorem ensureRGBBase_mode (img : Img) :
    (ensureRGBBase img).mode = Mode.RGB := by
  unfold ensureRGBBase convertRGB
  cases h : img.mode <;> simp [h]

theorem isOpaqueImage_ensureRGBBase (img : Img) :
    isOpaqueImage (ensureRGBBase img) = true := by
  simp [isOpaqueImage, ensureRGBBase_mode]

/-- C2 counterexample: an exception can escape the per-image boundary.  With
a first image whose base byte extraction (line 166, outside the try block)
raises, the loop aborts: nothing is persisted for either image, no raw bytes
are written for the failing image, and the second image is never processed,
refuting the claim that any exception while processing an image is caught at
the per-image boundary. -/
theorem claimC2_counterexample :
    extractImagesFromPdf ["jpeg"] [evC2cx, evC2wB]
      = (0, [], some ExtractError.baseExtract) := rfl

/-- C2 (amended): for every image list whose base byte extractions all
succeed, the loop completes with no escaping exception, processes every image
(a failure inside the guarded dispatch of image k — decode, normalize,
composite or re-encode — yields that image's raw-bytes fallback with an error
log, as `processImageBody` defines, and never prevents images k+1..n from
being processed), and the completion count equals the number of images.
Exceptions during base byte extraction itself, however, escape the loop, as
the counterexample shows. -/
theorem claimC2_amended (skipConv : List String) (l : List ImageEvent)
    (h : ∀ ev ∈ l, ev.baseExtractFails = false) :
    extractImagesFromPdf skipConv l
      = (l.length, l.map (processImageBody skipConv), none) := by
  induction l with
  | nil => rfl
  | cons ev rest ih =>
    have h1 : ev.baseExtractFails = false := h ev (List.mem_cons_self ev rest)
    have h2 : ∀ e ∈ rest, e.baseExtractFails = false :=
      fun e he => h e (List.mem_cons_of_mem ev he)
    simp [extractImagesFromPdf, processImage, h1, ih h2]

/-- Witness for the amended C2: a concrete two-image run where the first
image's dispatch fails (its bytes do not decode) and falls back to raw
persistence with an error log, while the second image is still processed to a
PNG; the count is 2 and no exception escapes. -/
theorem claimC2_witness :
    extractImagesFromPdf ["jpeg"] [evC2wA, evC2wB]
      = (2, [⟨SavedOutput.raw [5], false, true⟩,
             ⟨SavedOutput.png imgC2w, false, false⟩], none) := by
  rw [claimC2_amended ["jpeg"] [evC2wA, evC2wB] (by
    intro ev hev
    simp only [List.mem_cons, List.not_mem_nil, or_false] at hev
    rcases hev with rfl | rfl <;> rfl)]
  rfl

/-- C7 counterexample: when mask extraction fails for a descriptor with a
soft-mask reference, the base is not necessarily saved as an opaque image.
On the concrete event (dict smask field set, mask extraction raising, base
decoding to RGBA with a fully transparent pixel) the warning is logged and
processing continues, but the persisted PNG keeps the base's own non-opaque
alpha. -/
theorem claimC7_counterexample :
    processImage ["jpeg"] evC7cx
      = .ok ⟨SavedOutput.png imgC7cx, true, false⟩ ∧
    isOpaqueImage imgC7cx = false := ⟨rfl, rfl⟩

/-- C7 (amended): for every image descriptor with a soft-mask reference whose
mask-byte extraction fails, the failure is logged as a warning and processing
continues as if no mask existed; whenever the base decodes to any mode other
than RGBA or LA — including CMYK, which the color normalizer converts to RGB
before the alpha check — the normalized base is saved as an opaque image (a
base decoding to RGBA or LA is instead saved with its own, possibly
non-opaque, alpha); the image counter still increments and no exception
escapes the per-image boundary.  The profile hypothesis encodes that the
external ICC transform, when it succeeds, outputs RGB mode, as its
`outputMode="RGB"` argument guarantees. -/
theorem claimC7_amended (skipConv : List String) (ev : ImageEvent) (img : Img)
    (hbase : ev.baseExtractFails = false)
    (hmask : smaskXrefOf ev ≠ 0)
    (hfail : ev.maskExtractFails = true)
    (hdec : ev.decode ev.baseBytes = some img)
    (hprof : ∀ i r, ev.profile i = some r → r.mode = Mode.RGB)
    (halpha : ¬(img.mode = Mode.RGBA ∨ img.mode = Mode.LA)) :
    ∃ out, openPillowImage ev.decode ev.profile ev.baseBytes = .ok out ∧
      extractImagesFromPdf skipConv [ev]
        = (1, [⟨SavedOutput.png (ensureRGBBase out), true, false⟩], none) ∧
      isOpaqueImage (ensureRGBBase out) = true := by
  have hopen : ∃ out,
      openPillowImage ev.decode ev.profile ev.baseBytes = .ok out ∧
      ¬(out.mode = Mode.RGBA ∨ out.mode = Mode.LA) := by
    unfold openPillowImage
    rw [hdec]
    by_cases hm : img.mode = Mode.CMYK
    · cases hp : ev.profile img with
      | none =>
        refine ⟨convertRGB img, by simp [hm, hp], ?_⟩
        simp [convertRGB]
      | some r =>
        refine ⟨r, by simp [hm, hp], ?_⟩
        have hr := hprof img r hp
        simp [hr]
    · exact ⟨img, by simp [hm], halpha⟩
  obtain ⟨out, hout, houtAlpha⟩ := hopen
  refine ⟨out, hout, ?_, isOpaqueImage_ensureRGBBase out⟩
  have hsel : selectStrategy skipConv ev.ext ev.tupleVal ev.dictSmask
      (pixAlphaOf ev) = ReconstructionStrategy.compositeWithMask := by
    unfold selectStrategy
    unfold smaskXrefOf at hmask
    simp only [ne_eq, ite_not] at hmask
    simp [hmask]
  have hsave : savePngFromBaseAndMask ev.decode ev.profile ev.resample
      ev.baseBytes none = .ok (ensureRGBBase out, false) := by
    unfold savePngFromBaseAndMask
    rw [hout]
    simp [houtAlpha]
  have hbody : processImageBody skipConv ev
      = ⟨SavedOutput.png (ensureRGBBase out), true, false⟩ := by
    unfold processImageBody
    simp only [hsel]
    simp [hmask, hfail, hsave]
  simp [extractImagesFromPdf, processImage, hbase, hbody]

/-- Witness for the amended C7: the concrete event (soft-mask reference set,
mask extraction raising, base decoding to CMYK with a raising profile
transform) produces exactly one opaque PNG output — the base normalized to
RGB by the convert fallback — with the warning logged and no escaping
exception. -/
theorem claimC7_witness :
    ∃ out, openPillowImage evC7w.decode evC7w.profile evC7w.baseBytes
        = .ok out ∧
      extractImagesFromPdf ["jpeg"] [evC7w]
        = (1, [⟨SavedOutput.png (ensureRGBBase out), true, false⟩], none) ∧
      isOpaqueImage (ensureRGBBase out) = true :=
  claimC7_amended ["jpeg"] evC7w imgC7w rfl (by norm_num [smaskXrefOf, evC7w])
    rfl rfl (fun i r h => by simp [evC7w, profileNone] at h) (by decide)

/-- C9: the completion count equals the number of descriptors that reach
strategy dispatch — each dispatched image increments the counter exactly
once, on the pass-through branch, on a successful PNG branch and on the
per-image exception fallback alike, independent of per-image success or
failure; only a base-extraction abort stops the counting together with the
loop. -/
theorem claimC9_counter_invariant (skipConv : List String)
    (l : List ImageEvent) :
    (extractImagesFromPdf skipConv l).1
      = (l.takeWhile (fun ev => !ev.baseExtractFails)).length := by
  induction l with
  | nil => rfl
  | cons ev rest ih =>
    by_cases hb : ev.baseExtractFails = true
    · simp [extractImagesFromPdf, processImage, hb, List.takeWhile_cons]
    · simp only [Bool.not_eq_true] at hb
      simp [extractImagesFromPdf, processImage, hb, List.takeWhile_cons, ih]

end PdfImageExtractor
